import Mathlib

/-!
Verification of the SAL socket reactor (src/Socket.c, src/Socket.h) and of the
random-byte generator (src/Cryptography.c), by a shallow embedding of the
Windows build (the POSIX branch of the worker loop is empty in this revision).

Pointers are modelled as identities: a callback function pointer and an opaque
state pointer are `Option Nat` values, with `none` standing for NULL.  The
process heap of `SAL_Socket` records is a function from socket id to record.
The `AsyncLinkedList` container lives outside src/ (it comes from the
Utilities library); its operations Append / Remove / IterateNext /
ResetIterator are modelled from the spec's registry description: Append adds
at the end, Remove erases the entry for the socket, iteration walks the list
in order and can be reset to the head.
-/

namespace SAL

/-- Windows readiness batch bound: `#define FD_SETSIZE 1024` (Socket.c:16). -/
def FD_SETSIZE : Nat := 1024

/-- Windows `INVALID_SOCKET` sentinel, `(SOCKET)(~0)` for the 64-bit
`RawSocket` field of Socket.h (Socket.c:329 stores it on close). -/
def INVALID_SOCKET : Nat := 2 ^ 64 - 1

/-- `struct SAL_Socket` (Socket.h:19-32).  `SockType` embeds the C field
named `Type` (a reserved word in Lean).  `ReadCallback` and
`ReadCallbackState` are the single registered callback pointer and its opaque
state pointer; `none` is NULL. -/
structure SAL_Socket where
  RawSocket : Nat
  SockType : Nat
  Family : Nat
  Connected : Bool
  LastError : Nat
  RemoteEndpointAddress : List Nat
  ReadCallback : Option Nat
  ReadCallbackState : Option Nat
deriving DecidableEq

/-- The reactor's process-wide state (Socket.c:38-40): the heap of socket
records, the `asyncSocketList` registry, the `asyncWorkerRunning` flag, and
whether the worker thread spawned by `SAL_Thread_Create` is still alive
(`workerThreadActive` models the thread handle; `SAL_Thread_Join` in the
shutdown path ends it). -/
structure ReactorState where
  heap : Nat → SAL_Socket
  asyncSocketList : List Nat
  asyncWorkerRunning : Bool
  workerThreadActive : Bool

/-- `SAL_Socket_SetReadCallback` (Socket.c:394-409).  When the worker is not
running it first runs `SAL_Socket_CallbackWorker_Initialize` (Socket.c:90-94,
inlined here): a fresh empty `asyncSocketList`, the running flag set, the
worker thread spawned.  The socket is appended to `asyncSocketList` only when
its `ReadCallback` field is NULL; the callback and state fields are then
overwritten unconditionally. -/
def SAL_Socket_SetReadCallback (σ : ReactorState) (sid cb st : Nat) : ReactorState :=
  let σ1 := if σ.asyncWorkerRunning then σ
    else { σ with asyncSocketList := [], asyncWorkerRunning := true, workerThreadActive := true }
  let s := σ1.heap sid
  let σ2 := if s.ReadCallback = none
    then { σ1 with asyncSocketList := σ1.asyncSocketList ++ [sid] } else σ1
  { σ2 with heap := fun j => if j = sid then
      { s with ReadCallback := some cb, ReadCallbackState := some st } else σ2.heap j }

/-- The assertion prologue of `SAL_Socket_SetReadCallback` (Socket.c:395-397):
`assert(socket != NULL); assert(callback != NULL); assert(state != NULL);`.
The result is `none` exactly when one of the three asserts fires; otherwise
the registration runs.  No assert inspects `Connected`. -/
def SAL_Socket_SetReadCallback_checked (σ : ReactorState)
    (socket callback state : Option Nat) : Option ReactorState :=
  match socket, callback, state with
  | some sid, some cb, some st => some (SAL_Socket_SetReadCallback σ sid cb st)
  | _, _, _ => none

/-- `SAL_Socket_UnsetSocketCallback` (Socket.c:416-425): when a callback is
registered, NULL both fields and remove the socket from `asyncSocketList`;
otherwise do nothing. -/
def SAL_Socket_UnsetSocketCallback (σ : ReactorState) (sid : Nat) : ReactorState :=
  let s := σ.heap sid
  if s.ReadCallback = none then σ
  else
    { σ with
      heap := fun j => if j = sid then
        { s with ReadCallback := none, ReadCallbackState := none } else σ.heap j,
      asyncSocketList := σ.asyncSocketList.erase sid }

/-- `SAL_Socket_CallbackWorker_Shutdown` (Socket.c:96-100): clear the running
flag, join the worker thread, uninitialize the registry list. -/
def SAL_Socket_CallbackWorker_Shutdown (σ : ReactorState) : ReactorState :=
  { σ with asyncWorkerRunning := false, workerThreadActive := false, asyncSocketList := [] }

/-- `SAL_Socket_ClearCallbacks` (Socket.c:430-432): the only caller of the
worker shutdown. -/
def SAL_Socket_ClearCallbacks (σ : ReactorState) : ReactorState :=
  SAL_Socket_CallbackWorker_Shutdown σ

/-- `SAL_Socket_Close` (Socket.c:321-335): first unregister from the reactor,
then clear `Connected`, shut down and close the descriptor (OS calls, no
modelled state), and store the `INVALID_SOCKET` sentinel in `RawSocket`. -/
def SAL_Socket_Close (σ : ReactorState) (sid : Nat) : ReactorState :=
  let σ1 := SAL_Socket_UnsetSocketCallback σ sid
  { σ1 with heap := fun j => if j = sid then
      { σ1.heap sid with Connected := false, RawSocket := INVALID_SOCKET } else σ1.heap j }

/-- `SAL_Socket_Read` (Socket.c:345-361), as a function of the `recv` result
`received : int32`: `if (received <= 0) return 0; return (uint32)received;`.
The cast of the (positive) `int32` into `uint32` is value mod `2^32`. -/
def SAL_Socket_Read (received : Int) : Nat :=
  if received ≤ 0 then 0 else received.toNat % 2 ^ 32

/-- One observable action of the callback worker thread: a `recv` of some
byte count on a descriptor, or an invocation of a socket's registered
callback pointer with its opaque state pointer. -/
inductive WorkerAction where
  | read : Nat → Nat → WorkerAction
  | invoke : Nat → Option Nat → Option Nat → WorkerAction
deriving DecidableEq

/-- The dispatch stage of one `SAL_Socket_CallbackWorker_Run` iteration
(Socket.c:71-77): for every descriptor in the ready set, scan the whole
socket list and, for each socket whose `RawSocket` matches, call
`asyncSocket->ReadCallback(asyncSocket, asyncSocket->ReadCallbackState)`.
The loop body performs no `recv` and passes no buffer or byte count. -/
def dispatchReady (readyFds : List Nat) (socks : List SAL_Socket) : List WorkerAction :=
  readyFds.flatMap fun fd =>
    (socks.filter fun s => s.RawSocket == fd).map fun s =>
      WorkerAction.invoke fd s.ReadCallback s.ReadCallbackState

/-- Dispatch of a ready set against the registry of a reactor state. -/
def workerDispatch (σ : ReactorState) (readyFds : List Nat) : List WorkerAction :=
  dispatchReady readyFds (σ.asyncSocketList.map σ.heap)

/-- The select-set build of one worker iteration (Socket.c:58-64): starting
from iterator position `p`, `FD_SET` up to `FD_SETSIZE` successive sockets
from the registry list. -/
def selectBatch (socks : List Nat) (p : Nat) : List Nat :=
  (socks.drop p).take FD_SETSIZE

/-- The iterator position after one worker iteration over a registry of `N`
sockets (Socket.c:58-67): when fewer than `FD_SETSIZE` sockets remained, the
extra `AsyncLinkedList_IterateNext` fails, `asyncSocket` is NULL and the
iterator is reset to the head; otherwise the position advances by
`FD_SETSIZE` (even when that lands exactly on the end of the list, since the
for loop then stops on the count bound with `asyncSocket` non-NULL). -/
def nextPos (N p : Nat) : Nat :=
  if N - p < FD_SETSIZE then 0 else p + FD_SETSIZE

/-- Iterator position at the start of worker iteration `t`, counting from a
fresh iterator (`AsyncLinkedList_BeginIterate`, Socket.c:50). -/
def posIter (N : Nat) : Nat → Nat
  | 0 => 0
  | t + 1 => nextPos N (posIter N t)

/-- A registry-mutating call of the public façade. -/
inductive ReactorOp where
  | set : Nat → Nat → Nat → ReactorOp
  | unset : Nat → ReactorOp

/-- Apply one façade call to the reactor state. -/
def applyOp (σ : ReactorState) : ReactorOp → ReactorState
  | ReactorOp.set sid cb st => SAL_Socket_SetReadCallback σ sid cb st
  | ReactorOp.unset sid => SAL_Socket_UnsetSocketCallback σ sid

/-- Run a sequence of façade calls. -/
def runOps (σ : ReactorState) (ops : List ReactorOp) : ReactorState :=
  ops.foldl applyOp σ

/-- The registry invariant of the spec: each socket occurs at most once in
`asyncSocketList`, and membership coincides with having a registered
callback. -/
def ReactorInv (σ : ReactorState) : Prop :=
  σ.asyncSocketList.Nodup ∧
  ∀ sid, sid ∈ σ.asyncSocketList ↔ (σ.heap sid).ReadCallback ≠ none

/-- An empty registry: no socket in the list, no registered callback. -/
def EmptyRegistry (σ : ReactorState) : Prop :=
  σ.asyncSocketList = [] ∧ ∀ sid, (σ.heap sid).ReadCallback = none

/-- Auxiliary strengthening of `ReactorInv` used for preservation: when the
worker is not running (so `SAL_Socket_SetReadCallback` would reinitialize the
list) the registry is empty. -/
def ReactorInvStrong (σ : ReactorState) : Prop :=
  ReactorInv σ ∧ (σ.asyncWorkerRunning = false → EmptyRegistry σ)

/-- Byte offsets written by `SAL_Cryptography_RandomBytes`
(Cryptography.c:121-125) into an allocation of `count` bytes: the word loop
`for (; count > 3; count -= 4) *((uint32*)bytes + count - 4) = rand();`
stores 4 bytes at byte offsets `4*(count-4) .. 4*(count-4)+3` per iteration
(pointer arithmetic on `uint32*` scales by 4), then the tail loop stores one
byte at each offset below the remaining count. -/
def randomBytesStores : Nat → List Nat
  | 0 => []
  | 1 => [0]
  | 2 => [0, 1]
  | 3 => [0, 1, 2]
  | c + 4 => (List.range 4).map (fun k => 4 * c + k) ++ randomBytesStores c

/-- `SAL_Cryptography_RandomBytes` (Cryptography.c:109-129): NULL for
`count == 0`; otherwise an allocation of `count` bytes together with the byte
offsets the function stores to. -/
def SAL_Cryptography_RandomBytes (count : Nat) : Option (Nat × List Nat) :=
  if 0 < count then some (count, randomBytesStores count) else none

/-- A freshly `SAL_Socket_Initialize`d socket record (Socket.c:102-109). -/
def sock0 : SAL_Socket :=
  { RawSocket := 0, SockType := 0, Family := 0, Connected := false,
    LastError := 0, RemoteEndpointAddress := [], ReadCallback := none,
    ReadCallbackState := none }

/-- Reactor state at process start: empty registry, worker not running. -/
def σ0 : ReactorState :=
  { heap := fun _ => sock0, asyncSocketList := [],
    asyncWorkerRunning := false, workerThreadActive := false }

/-- A state whose every socket record is connected with descriptor 7. -/
def σconn : ReactorState :=
  { heap := fun _ => { sock0 with RawSocket := 7, Connected := true },
    asyncSocketList := [], asyncWorkerRunning := false, workerThreadActive := false }

/-- A connected socket with descriptor 5 and a registered callback, as the
worker's dispatch stage sees it. -/
def rsock : SAL_Socket :=
  { sock0 with
    RawSocket := 5
    Connected := true
    ReadCallback := some 1
    ReadCallbackState := some 2 }

/-- Helper: the socket record of the registered socket after
`SAL_Socket_SetReadCallback`: the callback and state fields are overwritten,
all other fields kept. -/
theorem setReadCallback_heap_self (σ : ReactorState) (sid cb st : Nat) :
    (SAL_Socket_SetReadCallback σ sid cb st).heap sid =
      { σ.heap sid with ReadCallback := some cb, ReadCallbackState := some st } := by
  unfold SAL_Socket_SetReadCallback
  by_cases h : σ.asyncWorkerRunning <;> simp [h]

/-- Helper: `SAL_Socket_SetReadCallback` leaves every other socket record
unchanged. -/
theorem setReadCallback_heap_ne (σ : ReactorState) (sid cb st j : Nat) (h : j ≠ sid) :
    (SAL_Socket_SetReadCallback σ sid cb st).heap j = σ.heap j := by
  unfold SAL_Socket_SetReadCallback
  by_cases hr : σ.asyncWorkerRunning <;> simp [hr, h] <;> split <;> rfl

/-- Helper: after any `SAL_Socket_SetReadCallback` the running flag is set. -/
theorem setReadCallback_running (σ : ReactorState) (sid cb st : Nat) :
    (SAL_Socket_SetReadCallback σ sid cb st).asyncWorkerRunning = true := by
  unfold SAL_Socket_SetReadCallback
  by_cases h : σ.asyncWorkerRunning <;> simp [h] <;> split <;> simp [h]

/-- Helper: when the worker runs and the socket already has a callback,
`SAL_Socket_SetReadCallback` leaves `asyncSocketList` unchanged (no second
append). -/
theorem setReadCallback_list_of_some (σ : ReactorState) (sid cb st c : Nat)
    (hrun : σ.asyncWorkerRunning = true) (hcb : (σ.heap sid).ReadCallback = some c) :
    (SAL_Socket_SetReadCallback σ sid cb st).asyncSocketList = σ.asyncSocketList := by
  unfold SAL_Socket_SetReadCallback
  simp [hrun, hcb]

/-- Helper: dispatching one ready descriptor against a one-socket registry
whose socket carries that descriptor yields exactly one invocation of its
callback with its state. -/
theorem dispatchReady_singleton (r : Nat) (s : SAL_Socket) (h : s.RawSocket = r) :
    dispatchReady [r] [s] = [WorkerAction.invoke r s.ReadCallback s.ReadCallbackState] := by
  simp [dispatchReady, h]

/-- C1: the claim asserts that the worker performs a bounded read for every
ready socket and hands the payload and byte count to the callbacks.  In
Socket.c:71-77 the dispatch loop performs no read at all: with socket `rsock`
(descriptor 5, callback registered) ready, no `read` action occurs in the
dispatch trace. -/
theorem claim1_counterexample :
    ¬ ∃ n, WorkerAction.read 5 n ∈ dispatchReady [5] [rsock] := by
  rintro ⟨n, hn⟩
  have h : dispatchReady [5] [rsock] = [WorkerAction.invoke 5 (some 1) (some 2)] := rfl
  rw [h] at hn
  simp at hn

/-- C1 (amended): for every descriptor reported ready, the worker invokes the
registered callback of every registry socket whose `RawSocket` matches it,
passing the socket's callback pointer its own opaque state; the dispatch
trace contains no read action, and no buffer or byte count is passed
(Socket.c:71-77, Socket.h:9). -/
theorem claim1_theorem (readyFds : List Nat) (socks : List SAL_Socket)
    (fd : Nat) (s : SAL_Socket) (hfd : fd ∈ readyFds) (hs : s ∈ socks)
    (hmatch : s.RawSocket = fd) :
    WorkerAction.invoke fd s.ReadCallback s.ReadCallbackState ∈ dispatchReady readyFds socks ∧
    ∀ g n, WorkerAction.read g n ∉ dispatchReady readyFds socks := by
  constructor
  · unfold dispatchReady
    rw [List.mem_flatMap]
    exact ⟨fd, hfd, List.mem_map_of_mem _ (List.mem_filter.2 ⟨hs, by simp [hmatch]⟩)⟩
  · intro g n hmem
    unfold dispatchReady at hmem
    rw [List.mem_flatMap] at hmem
    obtain ⟨a, -, hm⟩ := hmem
    obtain ⟨s1, -, he⟩ := List.mem_map.1 hm
    exact WorkerAction.noConfusion he

/-- Witness for C1 (amended) at descriptor 5 and socket `rsock`. -/
theorem claim1_witness :
    (5 ∈ [5] ∧ rsock ∈ [rsock] ∧ rsock.RawSocket = 5) ∧
    (WorkerAction.invoke 5 (some 1) (some 2) ∈ dispatchReady [5] [rsock] ∧
      ∀ g n, WorkerAction.read g n ∉ dispatchReady [5] [rsock]) :=
  ⟨⟨by decide, by decide, by decide⟩,
    claim1_theorem [5] [rsock] 5 rsock (by decide) (by decide) (by decide)⟩

/-- Reactor state after two successive registrations (callback 10/state 100,
then callback 20/state 200) for socket 1, whose descriptor is 7. -/
def σtwo : ReactorState :=
  SAL_Socket_SetReadCallback (SAL_Socket_SetReadCallback σconn 1 10 100) 1 20 200

/-- C2: the claim asserts that the second `SAL_Socket_SetReadCallback`
appends, so a readiness event invokes both callbacks in order.  On the code
the second call overwrites the single `ReadCallback` field
(Socket.c:404-408): after registering callback 10 then callback 20 for
socket 1, a readiness event on its descriptor never invokes callback 10. -/
theorem claim2_counterexample :
    WorkerAction.invoke 7 (some 10) (some 100) ∉ workerDispatch σtwo [7] ∧
    (σtwo.heap 1).ReadCallback = some 20 ∧
    workerDispatch σtwo [7] = [WorkerAction.invoke 7 (some 20) (some 200)] := by
  refine ⟨by decide, by decide, by decide⟩

/-- C2 (amended): a second `SAL_Socket_SetReadCallback` for the same socket
replaces rather than appends: afterwards the socket's registered callback and
state are the second pair, `asyncSocketList` is exactly as after the first
call (no duplicate entry), and a readiness event on the socket's descriptor
invokes only the second callback with the second state. -/
theorem claim2_theorem (σ : ReactorState) (sid c1 t1 c2 t2 : Nat) :
    ((SAL_Socket_SetReadCallback (SAL_Socket_SetReadCallback σ sid c1 t1) sid c2 t2).heap
        sid).ReadCallback = some c2 ∧
    ((SAL_Socket_SetReadCallback (SAL_Socket_SetReadCallback σ sid c1 t1) sid c2 t2).heap
        sid).ReadCallbackState = some t2 ∧
    (SAL_Socket_SetReadCallback (SAL_Socket_SetReadCallback σ sid c1 t1) sid c2
        t2).asyncSocketList = (SAL_Socket_SetReadCallback σ sid c1 t1).asyncSocketList ∧
    dispatchReady
        [((SAL_Socket_SetReadCallback (SAL_Socket_SetReadCallback σ sid c1 t1) sid c2
            t2).heap sid).RawSocket]
        [(SAL_Socket_SetReadCallback (SAL_Socket_SetReadCallback σ sid c1 t1) sid c2
            t2).heap sid] =
      [WorkerAction.invoke
        ((SAL_Socket_SetReadCallback (SAL_Socket_SetReadCallback σ sid c1 t1) sid c2
            t2).heap sid).RawSocket (some c2) (some t2)] := by
  have h1 := setReadCallback_heap_self (SAL_Socket_SetReadCallback σ sid c1 t1) sid c2 t2
  have h2 := setReadCallback_heap_self σ sid c1 t1
  have hcb : ((SAL_Socket_SetReadCallback (SAL_Socket_SetReadCallback σ sid c1 t1) sid c2
      t2).heap sid).ReadCallback = some c2 := by rw [h1]
  have hst : ((SAL_Socket_SetReadCallback (SAL_Socket_SetReadCallback σ sid c1 t1) sid c2
      t2).heap sid).ReadCallbackState = some t2 := by rw [h1]
  have hfirst : ((SAL_Socket_SetReadCallback σ sid c1 t1).heap sid).ReadCallback =
      some c1 := by rw [h2]
  refine ⟨hcb, hst,
    setReadCallback_list_of_some _ sid c2 t2 c1 (setReadCallback_running σ sid c1 t1)
      hfirst, ?_⟩
  rw [dispatchReady_singleton
      ((SAL_Socket_SetReadCallback (SAL_Socket_SetReadCallback σ sid c1 t1) sid c2
          t2).heap sid).RawSocket
      ((SAL_Socket_SetReadCallback (SAL_Socket_SetReadCallback σ sid c1 t1) sid c2
          t2).heap sid) rfl, hcb, hst]

/-- C3: the claim asserts a precondition failure whenever the socket is not
connected, and no failure under (connected, non-null callback).  The code's
asserts (Socket.c:395-397) never inspect `Connected`: registration on a
disconnected socket with non-null arguments passes all asserts, while a
connected socket with non-null callback but NULL state fails one. -/
theorem claim3_counterexample :
    (σ0.heap 0).Connected = false ∧
    (SAL_Socket_SetReadCallback_checked σ0 (some 0) (some 1) (some 2)).isSome = true ∧
    (σconn.heap 0).Connected = true ∧
    SAL_Socket_SetReadCallback_checked σconn (some 0) (some 1) none = none :=
  ⟨rfl, rfl, rfl, rfl⟩

/-- C3 (amended): `SAL_Socket_SetReadCallback` asserts that the socket
pointer, the callback and the opaque state are all non-NULL, and checks
nothing else (in particular not `Connected`); whenever all three are
non-NULL, no assertion fires and the registration runs. -/
theorem claim3_theorem (σ : ReactorState) (sid cb st : Nat) (co so : Option Nat) :
    SAL_Socket_SetReadCallback_checked σ (some sid) (some cb) (some st) =
      some (SAL_Socket_SetReadCallback σ sid cb st) ∧
    SAL_Socket_SetReadCallback_checked σ none co so = none ∧
    SAL_Socket_SetReadCallback_checked σ (some sid) none so = none ∧
    SAL_Socket_SetReadCallback_checked σ (some sid) (some cb) none = none :=
  ⟨rfl, rfl, rfl, rfl⟩

/-- C4: the claim asserts that removing the last registration triggers worker
shutdown (running flag cleared, thread joined).  On the code
`SAL_Socket_UnsetSocketCallback` (Socket.c:416-425) never calls
`SAL_Socket_CallbackWorker_Shutdown`: after registering socket 1 and then
unregistering it, the registry is empty but the running flag is still set and
the worker thread still alive. -/
theorem claim4_counterexample :
    (SAL_Socket_UnsetSocketCallback (SAL_Socket_SetReadCallback σconn 1 10 100)
        1).asyncSocketList = [] ∧
    (SAL_Socket_UnsetSocketCallback (SAL_Socket_SetReadCallback σconn 1 10 100)
        1).asyncWorkerRunning = true ∧
    (SAL_Socket_UnsetSocketCallback (SAL_Socket_SetReadCallback σconn 1 10 100)
        1).workerThreadActive = true := by
  refine ⟨by decide, by decide, by decide⟩

/-- C4 (amended): `SAL_Socket_UnsetSocketCallback` never touches the running
flag or the worker thread, even when it removes the last registration; worker
shutdown happens only through `SAL_Socket_ClearCallbacks`
(Socket.c:430-432), which clears the running flag, joins the worker thread
and releases the registry list (Socket.c:96-100). -/
theorem claim4_theorem (σ : ReactorState) (sid : Nat) :
    (SAL_Socket_UnsetSocketCallback σ sid).asyncWorkerRunning = σ.asyncWorkerRunning ∧
    (SAL_Socket_UnsetSocketCallback σ sid).workerThreadActive = σ.workerThreadActive ∧
    (SAL_Socket_ClearCallbacks σ).asyncWorkerRunning = false ∧
    (SAL_Socket_ClearCallbacks σ).workerThreadActive = false ∧
    (SAL_Socket_ClearCallbacks σ).asyncSocketList = [] := by
  refine ⟨?_, ?_, rfl, rfl, rfl⟩ <;>
    · by_cases h : (σ.heap sid).ReadCallback = none <;>
        simp [SAL_Socket_UnsetSocketCallback, h]

/-- C8: `SAL_Socket_Read` maps the result of `recv` to `max 0 received`
(Socket.c:357-360): 0 on error (negative) or zero-byte results, the exact
positive byte count otherwise, never negative.  The bounds are those of the
`int32` variable `received`. -/
theorem claim8_theorem (received : Int) (h1 : -(2 ^ 31) ≤ received)
    (h2 : received < 2 ^ 31) :
    (SAL_Socket_Read received : Int) = max 0 received := by
  unfold SAL_Socket_Read
  by_cases h : received ≤ 0
  · rw [if_pos h, max_eq_left h]
    rfl
  · have hp : 0 < received := not_le.1 h
    have ht : received.toNat < 2 ^ 32 := by omega
    rw [if_neg h, Nat.mod_eq_of_lt ht, Int.toNat_of_nonneg hp.le, max_eq_right hp.le]

/-- Witness for C8 at a successful 5-byte receive. -/
theorem claim8_witness :
    -(2 ^ 31) ≤ (5 : Int) ∧ (5 : Int) < 2 ^ 31 ∧ (SAL_Socket_Read 5 : Int) = max 0 5 :=
  ⟨by norm_num, by norm_num, claim8_theorem 5 (by norm_num) (by norm_num)⟩

/-- C9: the third assert of `SAL_Socket_SetReadCallback` (Socket.c:397) is
`assert(state != NULL)`: a call with a connected socket and a non-null
callback but NULL state fails the assertion instead of registering. -/
theorem claim9_theorem (σ : ReactorState) (sid cb : Nat)
    (_hconn : (σ.heap sid).Connected = true) :
    SAL_Socket_SetReadCallback_checked σ (some sid) (some cb) none = none :=
  rfl

/-- Witness for C9 on a connected socket. -/
theorem claim9_witness :
    (σconn.heap 0).Connected = true ∧
    SAL_Socket_SetReadCallback_checked σconn (some 0) (some 1) none = none :=
  ⟨rfl, claim9_theorem σconn 0 1 rfl⟩

/-- C10: `SAL_Cryptography_RandomBytes` returns NULL for `count == 0`, and a
`count`-byte allocation otherwise; but the word-filling loop
(Cryptography.c:121-122) does pointer arithmetic on `uint32*`, so its store
lands at byte offset `4*(count-4)` instead of `count-4`.  At `count = 5` the
function stores to byte offsets 4..7 of a 5-byte allocation: offset 7 is
outside `[0, 5)`, an out-of-bounds heap write, contradicting the function's
own contract of filling exactly `count` bytes. -/
theorem claim10_theorem :
    SAL_Cryptography_RandomBytes 0 = none ∧
    SAL_Cryptography_RandomBytes 5 = some (5, [4, 5, 6, 7, 0]) ∧
    7 ∈ randomBytesStores 5 ∧ ¬(7 < 5) := by
  refine ⟨rfl, rfl, by decide, by decide⟩

/-- Helper: a `SAL_Socket_UnsetSocketCallback` on a socket with no registered
callback is a no-op. -/
theorem unset_of_none (σ : ReactorState) (sid : Nat)
    (h : (σ.heap sid).ReadCallback = none) :
    SAL_Socket_UnsetSocketCallback σ sid = σ := by
  unfold SAL_Socket_UnsetSocketCallback
  simp [h]

/-- Helper: unregistering a socket that has a callback erases it from the
registry list. -/
theorem unset_list_of_not_none (σ : ReactorState) (sid : Nat)
    (h : (σ.heap sid).ReadCallback ≠ none) :
    (SAL_Socket_UnsetSocketCallback σ sid).asyncSocketList =
      σ.asyncSocketList.erase sid := by
  unfold SAL_Socket_UnsetSocketCallback
  simp [h]

/-- Helper: unregistering a socket that has a callback clears its callback
and state fields and keeps every other field. -/
theorem unset_heap_self_of_not_none (σ : ReactorState) (sid : Nat)
    (h : (σ.heap sid).ReadCallback ≠ none) :
    (SAL_Socket_UnsetSocketCallback σ sid).heap sid =
      { σ.heap sid with ReadCallback := none, ReadCallbackState := none } := by
  unfold SAL_Socket_UnsetSocketCallback
  simp [h]

/-- Helper: `SAL_Socket_UnsetSocketCallback` leaves every other socket record
unchanged. -/
theorem unset_heap_ne (σ : ReactorState) (sid j : Nat) (h : j ≠ sid) :
    (SAL_Socket_UnsetSocketCallback σ sid).heap j = σ.heap j := by
  unfold SAL_Socket_UnsetSocketCallback
  by_cases hc : (σ.heap sid).ReadCallback = none <;> simp [hc, h]

/-- Helper: when the worker runs and the socket has no callback yet,
registration appends it at the end of the registry list. -/
theorem setReadCallback_list_of_none (σ : ReactorState) (sid cb st : Nat)
    (hr : σ.asyncWorkerRunning = true) (hc : (σ.heap sid).ReadCallback = none) :
    (SAL_Socket_SetReadCallback σ sid cb st).asyncSocketList =
      σ.asyncSocketList ++ [sid] := by
  unfold SAL_Socket_SetReadCallback
  simp [hr, hc]

/-- Helper: when the worker is not running, registration reinitializes the
registry list and then appends the socket when it has no callback. -/
theorem setReadCallback_list_of_notRunning (σ : ReactorState) (sid cb st : Nat)
    (hr : σ.asyncWorkerRunning = false) (hc : (σ.heap sid).ReadCallback = none) :
    (SAL_Socket_SetReadCallback σ sid cb st).asyncSocketList = [sid] := by
  unfold SAL_Socket_SetReadCallback
  simp [hr, hc]

/-- C6: `SAL_Socket_Close` first removes the socket's reactor registration,
then clears `Connected` and stores the `INVALID_SOCKET` sentinel in
`RawSocket`; the `Family`, `SockType` (C field `Type`), `LastError` and
`RemoteEndpointAddress` fields are untouched (Socket.c:321-335). -/
theorem claim6_theorem (σ : ReactorState) (sid : Nat) (hinv : ReactorInv σ) :
    sid ∉ (SAL_Socket_Close σ sid).asyncSocketList ∧
    ((SAL_Socket_Close σ sid).heap sid).Connected = false ∧
    ((SAL_Socket_Close σ sid).heap sid).RawSocket = INVALID_SOCKET ∧
    ((SAL_Socket_Close σ sid).heap sid).Family = (σ.heap sid).Family ∧
    ((SAL_Socket_Close σ sid).heap sid).SockType = (σ.heap sid).SockType ∧
    ((SAL_Socket_Close σ sid).heap sid).LastError = (σ.heap sid).LastError ∧
    ((SAL_Socket_Close σ sid).heap sid).RemoteEndpointAddress =
      (σ.heap sid).RemoteEndpointAddress := by
  obtain ⟨hnd, hiff⟩ := hinv
  by_cases h : (σ.heap sid).ReadCallback = none
  · have hnm : sid ∉ σ.asyncSocketList := by
      rw [hiff]
      simp [h]
    refine ⟨?_, ?_, ?_, ?_, ?_, ?_, ?_⟩ <;>
      simp [SAL_Socket_Close, unset_of_none σ sid h, hnm]
  · have hm : sid ∉ σ.asyncSocketList.erase sid := by
      rw [hnd.mem_erase_iff]
      simp
    refine ⟨?_, ?_, ?_, ?_, ?_, ?_, ?_⟩ <;>
      simp [SAL_Socket_Close, unset_list_of_not_none σ sid h,
        unset_heap_self_of_not_none σ sid h, hm]

/-- Witness for C6: closing socket 3 in the pristine state. -/
theorem claim6_witness :
    ReactorInv σ0 ∧
    (3 ∉ (SAL_Socket_Close σ0 3).asyncSocketList ∧
      ((SAL_Socket_Close σ0 3).heap 3).Connected = false ∧
      ((SAL_Socket_Close σ0 3).heap 3).RawSocket = INVALID_SOCKET ∧
      ((SAL_Socket_Close σ0 3).heap 3).Family = (σ0.heap 3).Family ∧
      ((SAL_Socket_Close σ0 3).heap 3).SockType = (σ0.heap 3).SockType ∧
      ((SAL_Socket_Close σ0 3).heap 3).LastError = (σ0.heap 3).LastError ∧
      ((SAL_Socket_Close σ0 3).heap 3).RemoteEndpointAddress =
        (σ0.heap 3).RemoteEndpointAddress) :=
  ⟨⟨List.nodup_nil, by intro sid; simp [σ0, sock0]⟩,
    claim6_theorem σ0 3 ⟨List.nodup_nil, by intro sid; simp [σ0, sock0]⟩⟩

/-- Helper: registration preserves the strong registry invariant. -/
theorem invStrong_set (σ : ReactorState) (sid cb st : Nat)
    (h : ReactorInvStrong σ) :
    ReactorInvStrong (SAL_Socket_SetReadCallback σ sid cb st) := by
  obtain ⟨⟨hnd, hiff⟩, hempty⟩ := h
  have hrun := setReadCallback_running σ sid cb st
  by_cases hr : σ.asyncWorkerRunning = true
  · by_cases hc : (σ.heap sid).ReadCallback = none
    · have hlist := setReadCallback_list_of_none σ sid cb st hr hc
      have hnm : sid ∉ σ.asyncSocketList := by
        rw [hiff]
        simp [hc]
      refine ⟨⟨?_, ?_⟩, by simp [hrun]⟩
      · rw [hlist, List.nodup_append]
        simp [hnd, hnm]
      · intro j
        by_cases hj : j = sid
        · subst hj
          rw [hlist, setReadCallback_heap_self]
          simp
        · rw [hlist, setReadCallback_heap_ne σ sid cb st j hj]
          simp [hj, hiff j]
    · obtain ⟨c, hcEq⟩ := Option.ne_none_iff_exists'.1 hc
      have hlist := setReadCallback_list_of_some σ sid cb st c hr hcEq
      refine ⟨⟨by rw [hlist]; exact hnd, ?_⟩, by simp [hrun]⟩
      intro j
      by_cases hj : j = sid
      · subst hj
        rw [hlist, setReadCallback_heap_self]
        simp [hiff j, hc]
      · rw [hlist, setReadCallback_heap_ne σ sid cb st j hj]
        exact hiff j
  · have hrf : σ.asyncWorkerRunning = false := by simpa using hr
    obtain ⟨hlistE, hRCE⟩ := hempty hrf
    have hlist := setReadCallback_list_of_notRunning σ sid cb st hrf (hRCE sid)
    refine ⟨⟨by rw [hlist]; simp, ?_⟩, by simp [hrun]⟩
    intro j
    by_cases hj : j = sid
    · subst hj
      rw [hlist, setReadCallback_heap_self]
      simp
    · rw [hlist, setReadCallback_heap_ne σ sid cb st j hj]
      simp [hj, hRCE j]

/-- Helper: unregistration preserves the strong registry invariant. -/
theorem invStrong_unset (σ : ReactorState) (sid : Nat) (h : ReactorInvStrong σ) :
    ReactorInvStrong (SAL_Socket_UnsetSocketCallback σ sid) := by
  obtain ⟨⟨hnd, hiff⟩, hempty⟩ := h
  by_cases hc : (σ.heap sid).ReadCallback = none
  · rw [unset_of_none σ sid hc]
    exact ⟨⟨hnd, hiff⟩, hempty⟩
  · have hrun : (SAL_Socket_UnsetSocketCallback σ sid).asyncWorkerRunning =
        σ.asyncWorkerRunning := by
      unfold SAL_Socket_UnsetSocketCallback
      simp [hc]
    refine ⟨⟨?_, ?_⟩, ?_⟩
    · rw [unset_list_of_not_none σ sid hc]
      exact hnd.erase sid
    · intro j
      by_cases hj : j = sid
      · subst hj
        rw [unset_list_of_not_none σ j hc, unset_heap_self_of_not_none σ j hc,
          hnd.mem_erase_iff]
        simp
      · rw [unset_list_of_not_none σ sid hc, unset_heap_ne σ sid j hj,
          List.mem_erase_of_ne hj]
        exact hiff j
    · intro hfalse
      rw [hrun] at hfalse
      exact absurd ((hempty hfalse).2 sid) hc

/-- Helper: any sequence of façade calls preserves the strong registry
invariant. -/
theorem runOps_invStrong (ops : List ReactorOp) :
    ∀ σ, ReactorInvStrong σ → ReactorInvStrong (runOps σ ops) := by
  induction ops with
  | nil => exact fun σ h => h
  | cons op rest ih =>
    intro σ h
    show ReactorInvStrong (runOps (applyOp σ op) rest)
    cases op with
    | set sid cb st => exact ih _ (invStrong_set σ sid cb st h)
    | unset sid => exact ih _ (invStrong_unset σ sid h)

/-- C7: starting from an empty registry, any sequence of
`SAL_Socket_SetReadCallback` / `SAL_Socket_UnsetSocketCallback` calls keeps
the registry invariant: `asyncSocketList` has no duplicate socket, and a
socket is in the list exactly when its `ReadCallback` field is non-NULL
(Socket.c:394-409, 416-425). -/
theorem claim7_theorem (ops : List ReactorOp) (σ : ReactorState)
    (h : EmptyRegistry σ) : ReactorInv (runOps σ ops) := by
  obtain ⟨hl, hrc⟩ := h
  have h0 : ReactorInvStrong σ := by
    refine ⟨⟨by rw [hl]; exact List.nodup_nil, ?_⟩, fun _ => ⟨hl, hrc⟩⟩
    intro sid
    rw [hl]
    simp [hrc sid]
  exact (runOps_invStrong ops σ h0).1

/-- Witness for C7: two registrations for socket 1, one for socket 2, then
unregistration of socket 1, starting from the pristine state. -/
theorem claim7_witness :
    EmptyRegistry σ0 ∧
    ReactorInv (runOps σ0
      [ReactorOp.set 1 5 6, ReactorOp.set 1 7 8, ReactorOp.set 2 9 10,
        ReactorOp.unset 1]) :=
  ⟨⟨rfl, fun _ => rfl⟩,
    claim7_theorem
      [ReactorOp.set 1 5 6, ReactorOp.set 1 7 8, ReactorOp.set 2 9 10,
        ReactorOp.unset 1] σ0 ⟨rfl, fun _ => rfl⟩⟩

/-- Helper: iterating the worker from a fresh iterator, the position at the
start of iteration `t` is `t * FD_SETSIZE` as long as that many sockets
exist. -/
theorem posIter_mul (N t : Nat) (h : t * FD_SETSIZE ≤ N) :
    posIter N t = t * FD_SETSIZE := by
  induction t with
  | zero => rfl
  | succ t ih =>
    have h1 : t * FD_SETSIZE ≤ N := by
      have hmono : t * FD_SETSIZE ≤ (t + 1) * FD_SETSIZE :=
        Nat.mul_le_mul_right FD_SETSIZE (by omega)
      omega
    show nextPos N (posIter N t) = (t + 1) * FD_SETSIZE
    rw [ih h1]
    unfold nextPos
    rw [if_neg (by simp only [FD_SETSIZE] at h ⊢; omega)]
    simp only [FD_SETSIZE]
    omega

/-- Helper: a socket at list index `j` is in the select batch built from
position `p` whenever `p ≤ j < p + FD_SETSIZE`. -/
theorem mem_selectBatch (l : List Nat) (p j : Nat) (hj : j < l.length)
    (h1 : p ≤ j) (h2 : j < p + FD_SETSIZE) :
    l[j] ∈ selectBatch l p := by
  unfold selectBatch
  have hlen : j - p < ((l.drop p).take FD_SETSIZE).length := by
    rw [List.length_take, List.length_drop]
    simp only [FD_SETSIZE] at h2 ⊢
    omega
  refine List.mem_iff_getElem.2 ⟨j - p, hlen, ?_⟩
  rw [List.getElem_take, List.getElem_drop]
  congr 1
  omega

/-- C5: each worker iteration FD_SETs at most `FD_SETSIZE = 1024` sockets
(Socket.c:58); the iterator position is retained across iterations, advancing
by a full batch, and is reset exactly when the list was exhausted
(Socket.c:66-67); consequently, from a fresh iterator, a registry of `N`
unchanged sockets is fully covered within `ceil(N / 1024)` consecutive
iterations: socket index `j` is in the select batch of some iteration
`t < ceil(N / 1024)`. -/
theorem claim5_theorem (socks : List Nat) (j : Nat) (hj : j < socks.length) :
    (∀ p, (selectBatch socks p).length ≤ FD_SETSIZE) ∧
    (∀ p, nextPos socks.length p = 0 → socks.length < p + FD_SETSIZE) ∧
    (∀ p, nextPos socks.length p ≠ 0 → nextPos socks.length p = p + FD_SETSIZE) ∧
    ∃ t < (socks.length + FD_SETSIZE - 1) / FD_SETSIZE,
      socks[j] ∈ selectBatch socks (posIter socks.length t) := by
  refine ⟨?_, ?_, ?_, ?_⟩
  · intro p
    unfold selectBatch
    rw [List.length_take]
    exact min_le_left _ _
  · intro p h
    unfold nextPos at h
    by_cases hc : socks.length - p < FD_SETSIZE
    · simp only [FD_SETSIZE] at hc ⊢
      omega
    · rw [if_neg hc] at h
      simp only [FD_SETSIZE] at h
      omega
  · intro p h
    unfold nextPos at h ⊢
    by_cases hc : socks.length - p < FD_SETSIZE
    · rw [if_pos hc] at h
      exact absurd rfl h
    · rw [if_neg hc]
  · have hmul : j / FD_SETSIZE * FD_SETSIZE ≤ socks.length := by
      have hd := Nat.div_mul_le_self j FD_SETSIZE
      omega
    refine ⟨j / FD_SETSIZE, ?_, ?_⟩
    · simp only [FD_SETSIZE]
      omega
    · rw [posIter_mul _ _ hmul]
      refine mem_selectBatch socks _ j hj (Nat.div_mul_le_self j _) ?_
      simp only [FD_SETSIZE]
      omega

/-- Witness for C5 on a two-socket registry, socket index 0. -/
theorem claim5_witness :
    0 < ([3, 4] : List Nat).length ∧
    ((∀ p, (selectBatch [3, 4] p).length ≤ FD_SETSIZE) ∧
      (∀ p, nextPos ([3, 4] : List Nat).length p = 0 →
        ([3, 4] : List Nat).length < p + FD_SETSIZE) ∧
      (∀ p, nextPos ([3, 4] : List Nat).length p ≠ 0 →
        nextPos ([3, 4] : List Nat).length p = p + FD_SETSIZE) ∧
      ∃ t < (([3, 4] : List Nat).length + FD_SETSIZE - 1) / FD_SETSIZE,
        ([3, 4] : List Nat)[0] ∈ selectBatch [3, 4]
          (posIter ([3, 4] : List Nat).length t)) :=
  ⟨by decide, claim5_theorem [3, 4] 0 (by decide)⟩

end SAL
